import Mathlib

/-!
# Weekly payout & closing engine — verification development

Shallow embedding of the weekly payroll core of the `motoboys-webapp`
repository (services `payouts.py`, `ledger.py`, `week_service.py`).

Modelling conventions:
* All monetary quantities are integers counting cents.  The database schema
  declares every monetary column as `Numeric(12, 2)` and ride fees are small
  integers (`fee_type`), so every storable amount is an exact multiple of one
  cent; at that granularity the source's `1e-9` epsilon comparisons coincide
  with comparisons against zero (one cent is far larger than `1e-9`).
* Dates are proleptic-Gregorian day ordinals (`Int`), as in Python's
  `date.toordinal()`; day 1 is a Monday, so the weekday of `d` is
  `(d + 6) % 7` with Monday = 0 and Thursday = 3.
* Identifiers (UUIDs in the schema) are modelled as `Nat` handles; a `seq`
  counter in the database state produces fresh handles for inserted rows.
* A database session/transaction is modelled by explicit state passing:
  each service call maps a `DB` to `Except Err (DB × result)`.  The source
  wraps every call in a single transaction with one `commit` at the end, so a
  failure publishes no intermediate state: an `Except.error` result carries
  no new `DB`, and the runner functions below keep the old state in that case.
-/

namespace Motoboys

/-- Week lifecycle status (`week_status` enum). -/
inductive WeekStatus
  | OPEN
  | CLOSED
  | PAID
deriving DecidableEq, Repr

/-- Ride status (`ride_status` enum). -/
inductive RideStatus
  | OK
  | PENDENTE_ATRIBUICAO
  | PENDENTE_REVISAO
  | PENDENTE_MATCH
  | DESCARTADO
deriving DecidableEq, Repr

/-- Ledger entry type (`ledger_type` enum). -/
inductive LedgerType
  | EXTRA
  | VALE
deriving DecidableEq, Repr

/-- Loan plan status. -/
inductive PlanStatus
  | ACTIVE
  | DONE
deriving DecidableEq, Repr

/-- Loan installment status.  `PARCIAL` renders the source's partial-payment
status (its English name is avoided for tooling reasons). -/
inductive InstStatus
  | DUE
  | PARCIAL
  | ROLLED
  | PAID
  | CANCELLED
deriving DecidableEq, Repr

/-- A `weeks` row. -/
structure Week where
  id : Nat
  closing_seq : Int
  start_date : Int
  end_date : Int
  status : WeekStatus
deriving DecidableEq, Repr

/-- A `rides` row (the fields the payout engine reads). -/
structure Ride where
  id : Nat
  courier_id : Option Nat
  fee_type : Int
  value_raw : Int
  status : RideStatus
  is_cancelled : Option Bool
  order_date : Int
  week_id : Nat
  paid_in_week_id : Option Nat
deriving DecidableEq, Repr

/-- A `ledger_entries` row. -/
structure LedgerEntry where
  id : Nat
  courier_id : Nat
  week_id : Nat
  effective_date : Int
  type : LedgerType
  amount : Int
deriving DecidableEq, Repr

/-- A `loan_plans` row. -/
structure LoanPlan where
  id : Nat
  courier_id : Nat
  total_amount : Int
  n_installments : Nat
  status : PlanStatus
  start_closing_seq : Int
deriving DecidableEq, Repr

/-- A `loan_installments` row. -/
structure LoanInstallment where
  id : Nat
  plan_id : Nat
  installment_no : Nat
  due_closing_seq : Int
  amount : Int
  paid_amount : Int
  status : InstStatus
deriving DecidableEq, Repr

/-- A `loan_installment_applications` row (append-only audit trail). -/
structure LoanApplication where
  installment_id : Nat
  week_id : Nat
  applied_amount : Int
deriving DecidableEq, Repr

/-- A `week_payouts` snapshot row. -/
structure WeekPayout where
  week_id : Nat
  courier_id : Nat
  rides_amount : Int
  extras_amount : Int
  vales_amount : Int
  installments_amount : Int
  net_amount : Int
  pending_count : Nat
  is_flag_red : Bool
deriving DecidableEq, Repr

/-- A `couriers` row (only the display name is relevant here). -/
structure Courier where
  id : Nat
  nome_resumido : String
deriving DecidableEq, Repr

/-- The database state seen by the payout/ledger/week services. -/
structure DB where
  weeks : List Week
  rides : List Ride
  ledger : List LedgerEntry
  plans : List LoanPlan
  installments : List LoanInstallment
  applications : List LoanApplication
  payouts : List WeekPayout
  couriers : List Courier
  seq : Nat
deriving DecidableEq, Repr

/-- Structured errors (HTTPException payloads / Python runtime errors). -/
inductive Err
  | weekNotFound
  | courierNotFound
  | ledgerEntryNotFound
  | WEEK_NOT_OPEN (status : WeekStatus)
  | WEEK_NOT_CLOSED (status : WeekStatus)
  | WEEK_HAS_PENDINGS (pending_total : Nat) (unassigned_ok_rides : Nat)
  | WEEK_OVERLAP (conflict_week_id : Nat)
  | DATE_OUTSIDE_WEEK
  | amountNotPositive
  | nameError (name : String)
deriving DecidableEq, Repr

/-! ## Shared query helpers (`payouts.py`) -/

/-- `or_(Ride.is_cancelled.is_(None), Ride.is_cancelled == False)`. -/
def not_cancelled (r : Ride) : Bool :=
  r.is_cancelled == none || r.is_cancelled == some false

/-- `_scope_filter`: paid-in-week overrides the original `week_id`. -/
def scope_filter (week_id : Nat) (r : Ride) : Bool :=
  (r.week_id == week_id && r.paid_in_week_id == none)
    || r.paid_in_week_id == some week_id

/-- Membership in `_PENDING_STATUSES`. -/
def is_pending_status (s : RideStatus) : Bool :=
  match s with
  | .PENDENTE_ATRIBUICAO => true
  | .PENDENTE_REVISAO => true
  | .PENDENTE_MATCH => true
  | _ => false

/-- `get_week_or_404`. -/
def get_week_or_404 (db : DB) (week_id : Nat) : Except Err Week :=
  match db.weeks.find? (fun w => w.id == week_id) with
  | some w => .ok w
  | none => .error .weekNotFound

/-- Whether an installment status counts as still open (`DUE`/`ROLLED`/partial). -/
def is_open_inst_status (s : InstStatus) : Bool :=
  match s with
  | .DUE => true
  | .ROLLED => true
  | .PARCIAL => true
  | _ => false

/-- The SQL ordering `ORDER BY due_closing_seq ASC, installment_no ASC`. -/
def inst_order (a b : LoanInstallment) : Prop :=
  a.due_closing_seq < b.due_closing_seq
    ∨ (a.due_closing_seq = b.due_closing_seq ∧ a.installment_no ≤ b.installment_no)

instance : DecidableRel inst_order := fun a b => by
  unfold inst_order; infer_instance

/-- `_get_due_installments`: installments of the courier's ACTIVE plans with an
open status and `due_closing_seq <= closing_seq`, ordered by
`(due_closing_seq, installment_no)`.  The SQL join on `plan_id` is rendered as
an existential over the plans table (plan ids are unique keys). -/
def get_due_installments (db : DB) (courier_id : Nat) (closing_seq : Int) :
    List LoanInstallment :=
  (db.installments.filter (fun li =>
      db.plans.any (fun lp =>
        lp.id == li.plan_id && lp.courier_id == courier_id
          && lp.status == .ACTIVE)
        && is_open_inst_status li.status
        && li.due_closing_seq ≤ closing_seq)).insertionSort inst_order

/-- `_remaining_installment_amount`. -/
def remaining_installment_amount (li : LoanInstallment) : Int :=
  max 0 (li.amount - li.paid_amount)

/-! ## Payout preview (`compute_week_payout_preview`) -/

/-- One row of the preview result. -/
structure PreviewRow where
  week_id : Nat
  courier_id : Option Nat
  courier_nome : Option String
  rides_count : Nat
  rides_amount : Int
  rides_value_raw_amount : Int
  extras_amount : Int
  vales_amount : Int
  installments_amount : Int
  pending_count : Nat
  net_amount : Int
  is_flag_red : Bool
deriving DecidableEq, Repr

/-- In-scope OK non-cancelled rides for the week (the `ok_rows` query before
grouping). -/
def ok_rides (db : DB) (week_id : Nat) : List Ride :=
  db.rides.filter (fun r =>
    scope_filter week_id r && r.status == .OK && not_cancelled r)

/-- In-scope pending non-cancelled rides for the week (the `pending_rows`
query before grouping). -/
def pending_rides (db : DB) (week_id : Nat) : List Ride :=
  db.rides.filter (fun r =>
    scope_filter week_id r && is_pending_status r.status && not_cancelled r)

/-- Ledger entries of the week (the `ledger_rows` query before grouping). -/
def week_ledger_entries (db : DB) (week_id : Nat) : List LedgerEntry :=
  db.ledger.filter (fun le => le.week_id == week_id)

/-- The keys of the `by_id` dictionary, in insertion order: couriers seen in
the OK aggregation, then in the pending aggregation, then in the ledger
aggregation. -/
def preview_keys (db : DB) (week_id : Nat) : List (Option Nat) :=
  (((ok_rides db week_id).map Ride.courier_id)
      ++ ((pending_rides db week_id).map Ride.courier_id)
      ++ ((week_ledger_entries db week_id).map (fun le => some le.courier_id))).dedup

/-- Display name lookup for a preview key. -/
def courier_nome_of (db : DB) (cid : Option Nat) : Option String :=
  cid.bind (fun c => (db.couriers.find? (fun k => k.id == c)).map Courier.nome_resumido)

/-- Total still-due amount used in the preview (`installment_due_total`). -/
def installment_due_total (db : DB) (cid : Option Nat) (closing_seq : Int) : Int :=
  match cid with
  | none => 0
  | some c =>
      ((get_due_installments db c closing_seq).map remaining_installment_amount).sum

/-- One assembled preview row for the key `cid` (the body of the final loop of
`compute_week_payout_preview`). -/
def preview_row (db : DB) (w : Week) (cid : Option Nat) : PreviewRow :=
  let oks := (ok_rides db w.id).filter (fun r => r.courier_id == cid)
  let pendings := (pending_rides db w.id).filter (fun r => r.courier_id == cid)
  let entries : List LedgerEntry := match cid with
    | none => []
    | some c => (week_ledger_entries db w.id).filter (fun le => le.courier_id == c)
  let rides_amount := (oks.map Ride.fee_type).sum
  let extras_amount :=
    ((entries.filter (fun le => le.type == .EXTRA)).map LedgerEntry.amount).sum
  let vales_amount :=
    ((entries.filter (fun le => le.type == .VALE)).map LedgerEntry.amount).sum
  let due_total := installment_due_total db cid w.closing_seq
  let pre_installment_net := rides_amount + extras_amount - vales_amount
  let installments_amount := max 0 (min pre_installment_net due_total)
  let nome := courier_nome_of db cid
  { week_id := w.id
    courier_id := cid
    courier_nome := if cid == none then some "<SEM ATRIBUIÇÃO>" else nome
    rides_count := oks.length
    rides_amount := rides_amount
    rides_value_raw_amount := (oks.map Ride.value_raw).sum
    extras_amount := extras_amount
    vales_amount := vales_amount
    installments_amount := installments_amount
    pending_count := pendings.length
    net_amount := pre_installment_net - installments_amount
    -- source: `installment_due_total > installments_amount + 1e-9`; on integer
    -- cents this is a strict integer comparison, and the unassigned bucket is
    -- forced to `False`.
    is_flag_red := if cid == none then false else due_total > installments_amount }

/-- The ordering used by the final `out.sort`: ascending on the upper-cased
display name (empty string for a missing name). -/
def row_order (a b : PreviewRow) : Prop :=
  ((a.courier_nome.getD "").toUpper) ≤ ((b.courier_nome.getD "").toUpper)

instance : DecidableRel row_order := fun a b => by
  unfold row_order; infer_instance

/-- `compute_week_payout_preview`. -/
def compute_week_payout_preview (db : DB) (week_id : Nat) :
    Except Err (List PreviewRow) := do
  let w ← get_week_or_404 db week_id
  let rows := (preview_keys db week_id).map (preview_row db w)
  return rows.insertionSort row_order

/-! ## Week closing (`close_week`) -/

/-- `validate_no_week_overlap` (from `week_service.py`). -/
def validate_no_week_overlap (db : DB) (start_date end_date : Int)
    (exclude_week_id : Option Nat) : Except Err Unit :=
  match db.weeks.find? (fun w =>
      w.start_date ≤ end_date && start_date ≤ w.end_date
        && !(exclude_week_id == some w.id)) with
  | some hit => .error (.WEEK_OVERLAP hit.id)
  | none => .ok ()

/-- Mutable state of the installment-application loop inside `close_week`:
the `loan_installments` table, the append-only application log, and the
remaining `to_apply` budget. -/
structure InstLoopState where
  installments : List LoanInstallment
  applications : List LoanApplication
  to_apply : Int
deriving DecidableEq, Repr

/-- One iteration of `for inst in due_rows` in `close_week`.  `inst` is the
row as fetched before the loop; updates are written back by id. -/
def inst_step (week_id : Nat) (st : InstLoopState) (inst : LoanInstallment) :
    InstLoopState :=
  let remaining := remaining_installment_amount inst
  if remaining ≤ 0 then st
  else
    let applied := min st.to_apply remaining
    let st' :=
      if applied > 0 then
        { installments := st.installments.map (fun li =>
            if li.id == inst.id then
              { li with paid_amount := li.paid_amount + applied }
            else li)
          applications :=
            st.applications ++ [⟨inst.id, week_id, applied⟩]
          to_apply := st.to_apply - applied }
      else st
    let remaining' := remaining - applied
    -- source: `remaining <= 1e-9` (exactly `remaining' <= 0` at cent
    -- granularity).
    if remaining' ≤ 0 then
      { st' with installments := st'.installments.map (fun li =>
          if li.id == inst.id then { li with status := .PAID } else li) }
    else
      let next_status : InstStatus := if applied > 0 then .PARCIAL else .ROLLED
      { st' with installments := st'.installments.map (fun li =>
          if li.id == inst.id then
            { li with status := next_status
                      due_closing_seq := li.due_closing_seq + 1 }
          else li) }

/-- The snapshot row written for a courier row of the preview. -/
def mk_payout (w : Week) (r : PreviewRow) (cid : Nat) : WeekPayout :=
  { week_id := w.id
    courier_id := cid
    rides_amount := r.rides_amount
    extras_amount := r.extras_amount
    vales_amount := r.vales_amount
    installments_amount := r.installments_amount
    net_amount := r.net_amount
    pending_count := r.pending_count
    is_flag_red := r.is_flag_red }

/-- The per-row body of the snapshot loop in `close_week`: apply due
installments with audit trail, close finished plans of the courier, and add
the `WeekPayout` row.  Rows with a null courier are skipped. -/
def process_courier (w : Week) (db : DB) (r : PreviewRow) : DB :=
  match r.courier_id with
  | none => db
  | some cid =>
    let due_rows := get_due_installments db cid w.closing_seq
    let st := due_rows.foldl (inst_step w.id)
      ⟨db.installments, db.applications, r.installments_amount⟩
    let plans' := db.plans.map (fun lp =>
      if lp.courier_id == cid && lp.status == .ACTIVE
          && !(st.installments.any (fun li =>
                li.plan_id == lp.id && is_open_inst_status li.status)) then
        { lp with status := .DONE }
      else lp)
    { db with
        installments := st.installments
        applications := st.applications
        plans := plans'
        payouts := db.payouts ++ [mk_payout w r cid] }

/-- `close_week`.  The returned `Nat` is the `payouts` count of the response. -/
def close_week (db : DB) (week_id : Nat) : Except Err (DB × Nat) := do
  let w ← get_week_or_404 db week_id
  if w.status ≠ .OPEN then throw (.WEEK_NOT_OPEN w.status)
  validate_no_week_overlap db w.start_date w.end_date (some w.id)
  let rows ← compute_week_payout_preview db week_id
  let pending_total := (rows.map PreviewRow.pending_count).sum
  let unassigned := rows.filter (fun r =>
    r.courier_id == none && r.rides_count > 0)
  if pending_total > 0 ∨ unassigned ≠ [] then
    throw (.WEEK_HAS_PENDINGS pending_total
      ((unassigned.map PreviewRow.rides_count).sum))
  let db1 : DB :=
    { db with payouts := db.payouts.filter (fun p => !(p.week_id == week_id)) }
  let db2 := rows.foldl (process_courier w) db1
  let db3 : DB :=
    { db2 with weeks := db2.weeks.map (fun x =>
        if x.id == w.id then { x with status := .CLOSED } else x) }
  return (db3, rows.length)

/-- The enclosing transaction: a failed `close_week` publishes nothing (the
session rolls back — the single `db.commit()` sits after all mutations), a
successful one publishes the new state. -/
def close_week_run (db : DB) (week_id : Nat) : DB × Except Err Nat :=
  match close_week db week_id with
  | .ok (db', n) => (db', .ok n)
  | .error e => (db, .error e)

/-! ## Ledger service (`ledger.py`) -/

/-- `DEFAULT_LOAN_INSTALLMENTS`. -/
def DEFAULT_LOAN_INSTALLMENTS : Nat := 3

/-- `_split_amount_cent` on integer cents.  `Decimal` quantization to two
places with `ROUND_DOWN` is truncation toward zero at cent granularity, i.e.
`Int.tdiv`.  (The source raises `ValueError` for `n_installments <= 0`; that
guard is outside every call site, which always passes 3, and is rendered as
the empty split.) -/
def split_amount_cent (total_amount : Int) (n_installments : Nat) : List Int :=
  if n_installments = 0 then []
  else if n_installments = 1 then [total_amount]
  else
    let base := Int.tdiv total_amount n_installments
    List.replicate (n_installments - 1) base
      ++ [total_amount - base * (n_installments - 1)]

/-- Installment rows inserted by `_create_loan_plan_with_installments`:
`installment_no` counts from 1 and `due_closing_seq` starts at the week's
`closing_seq`, one per subsequent closing. -/
def mk_plan_installments (plan_id first_inst_id : Nat) (closing_seq : Int)
    (parts : List Int) : List LoanInstallment :=
  (List.range parts.length).map (fun i =>
    { id := first_inst_id + i
      plan_id := plan_id
      installment_no := i + 1
      due_closing_seq := closing_seq + i
      amount := parts.getD i 0
      paid_amount := 0
      status := .DUE })

/-- `_create_loan_plan_with_installments`: insert an ACTIVE plan and its
`DUE` installments split by `split_amount_cent`.  Fresh row ids come from the
`seq` counter.  Returns the new plan id. -/
def create_loan_plan_with_installments (db : DB) (courier_id : Nat) (w : Week)
    (loan_amount : Int) (n_installments : Nat) : DB × Nat :=
  let plan_id := db.seq
  let parts := split_amount_cent loan_amount n_installments
  let plan : LoanPlan :=
    { id := plan_id
      courier_id := courier_id
      total_amount := loan_amount
      n_installments := n_installments
      status := .ACTIVE
      start_closing_seq := w.closing_seq }
  ({ db with
      plans := db.plans ++ [plan]
      installments :=
        db.installments ++ mk_plan_installments plan_id (db.seq + 1) w.closing_seq parts
      seq := db.seq + 1 + parts.length },
   plan_id)

/-- Result payload of `create_ledger_entry`. -/
structure CreateAdvanceOut where
  ledger_entry_id : Option Nat
  vale_amount : Int
  loan_amount : Int
  loan_plan_id : Option Nat
  loan_n_installments : Option Nat
deriving DecidableEq, Repr

/-- `create_ledger_entry`, as written.  After the week lookup, line 118 reads
`week["status"]` although no name `week` is bound anywhere in the function or
module (the week found is bound to `w`), so every call that finds the week
raises `NameError: name 'week' is not defined` before any further check or
mutation. -/
def create_ledger_entry (db : DB) (courier_id week_id : Nat)
    (effective_date : Int) (type : LedgerType) (amount : Int) :
    Except Err (DB × CreateAdvanceOut) := do
  let _w ← get_week_or_404 db week_id
  throw (.nameError "week")

/-- `create_ledger_entry` with line 118's undefined `week` read as the bound
week `w` — the check the surrounding code (and its own comment, line 166:
"do not fail on exceeding day gain; convert overflow to a loan plan")
intends.  Everything below the status check is translated verbatim from the
unreachable source lines 121–239. -/
def create_ledger_entry_fixed (db : DB) (courier_id week_id : Nat)
    (effective_date : Int) (type : LedgerType) (amount : Int) :
    Except Err (DB × CreateAdvanceOut) := do
  let w ← get_week_or_404 db week_id
  if w.status ≠ .OPEN then throw (.WEEK_NOT_OPEN w.status)
  if db.couriers.find? (fun c => c.id == courier_id) = none then
    throw .courierNotFound
  if effective_date < w.start_date ∨ w.end_date < effective_date then
    throw .DATE_OUTSIDE_WEEK
  -- `type not in ("EXTRA", "VALE")` cannot occur for the enum argument.
  if amount ≤ 0 then throw .amountNotPositive
  match type with
  | .EXTRA =>
      let le : LedgerEntry :=
        { id := db.seq, courier_id := courier_id, week_id := week_id
          effective_date := effective_date, type := .EXTRA, amount := amount }
      return ({ db with ledger := db.ledger ++ [le], seq := db.seq + 1 },
        { ledger_entry_id := some le.id, vale_amount := 0, loan_amount := 0
          loan_plan_id := none, loan_n_installments := none })
  | .VALE =>
      -- day gain: same-courier OK non-cancelled rides of this week (without
      -- a paid-in-week redirect) on the effective date.
      let day_gain := ((db.rides.filter (fun r =>
          r.week_id == week_id && r.paid_in_week_id == none
            && r.courier_id == some courier_id && r.status == .OK
            && not_cancelled r && r.order_date == effective_date)).map
          Ride.fee_type).sum
      let existing_vales := ((db.ledger.filter (fun le =>
          le.week_id == week_id && le.courier_id == courier_id
            && le.type == .VALE && le.effective_date == effective_date)).map
          LedgerEntry.amount).sum
      let available := max 0 (day_gain - existing_vales)
      let vale_amount := min amount available
      let loan_amount := max 0 (amount - vale_amount)
      let (db1, le_id) :=
        if vale_amount > 0 then
          let le : LedgerEntry :=
            { id := db.seq, courier_id := courier_id, week_id := week_id
              effective_date := effective_date, type := .VALE
              amount := vale_amount }
          ({ db with ledger := db.ledger ++ [le], seq := db.seq + 1 },
            some le.id)
        else (db, none)
      let (db2, plan_id) :=
        if loan_amount > 0 then
          let (db2, pid) := create_loan_plan_with_installments db1 courier_id w
            loan_amount DEFAULT_LOAN_INSTALLMENTS
          (db2, some pid)
        else (db1, none)
      return (db2,
        { ledger_entry_id := le_id, vale_amount := vale_amount
          loan_amount := loan_amount, loan_plan_id := plan_id
          loan_n_installments :=
            if plan_id ≠ none then some DEFAULT_LOAN_INSTALLMENTS else none })

/-- `delete_ledger_entry`: look the entry up and delete it.  No state of the
owning week (or anything else) is consulted. -/
def delete_ledger_entry (db : DB) (ledger_id : Nat) : Except Err DB :=
  match db.ledger.find? (fun le => le.id == ledger_id) with
  | none => .error .ledgerEntryNotFound
  | some _ => .ok { db with ledger := db.ledger.filter (fun le => !(le.id == ledger_id)) }

/-! ## Week service (`week_service.py`) -/

/-- Python's `date.weekday()` on day ordinals: Monday = 0 … Thursday = 3. -/
def weekday (d : Int) : Int := (d + 6) % 7

/-- `thursday_start`: the nearest Thursday on or before `d`. -/
def thursday_start (d : Int) : Int := d - ((weekday d - 3) % 7)

/-- `_next_closing_seq`: `int(max(closing_seq) or 0) + 1`. -/
def next_closing_seq (db : DB) : Int :=
  (((db.weeks.map Week.closing_seq).max?).getD 0) + 1

/-- `get_or_create_week_for_date`: return the covering week, or create (and
commit) a 7-day OPEN week anchored to the nearest prior Thursday after
checking it overlaps nothing. -/
def get_or_create_week_for_date (db : DB) (d : Int) : Except Err (DB × Week) :=
  match db.weeks.find? (fun w => w.start_date ≤ d && d ≤ w.end_date) with
  | some w => .ok (db, w)
  | none =>
      let start := thursday_start d
      let stop := start + 6
      match validate_no_week_overlap db start stop none with
      | .error e => .error e
      | .ok _ =>
          let w : Week :=
            { id := db.seq, closing_seq := next_closing_seq db
              start_date := start, end_date := stop, status := .OPEN }
          .ok ({ db with weeks := db.weeks ++ [w], seq := db.seq + 1 }, w)

/-- The bounded `for _ in range(26)` walk of `get_open_week_for_date`,
carrying the last examined week.  Each probe is a full
`get_or_create_week_for_date` call (which may insert and commit a week). -/
def open_week_walk : Nat → DB → Week → Int → Except Err (DB × Week)
  | 0, db, ww, _ => .ok (db, ww)
  | fuel + 1, db, _, cursor => do
      let (db', ww) ← get_or_create_week_for_date db cursor
      if ww.status = .OPEN then .ok (db', ww)
      else open_week_walk fuel db' ww (ww.end_date + 1)

/-- `get_open_week_for_date`: resolve (or create) the week containing `d`;
if it is not OPEN, walk forward week by week, creating missing weeks on the
way, for at most 26 steps, returning the first OPEN week found or the last
examined week. -/
def get_open_week_for_date (db : DB) (d : Int) : Except Err (DB × Week) := do
  let (db', w) ← get_or_create_week_for_date db d
  if w.status = .OPEN then .ok (db', w)
  else open_week_walk 26 db' w (w.end_date + 1)

end Motoboys

deriving instance DecidableEq for Except

namespace Motoboys

/-! ## Claim-side (specification) definitions

These are written from the specification's words, to be compared with the
definitions above, which are translated from the source. -/

/-- The split property exactly as the specification states it: `n` parts,
exact sum, the first `n − 1` parts all equal to `floor(total / n)` at cent
granularity (`Int.fdiv` on cents), the last equal to the remainder. -/
def split_claim_as_stated (total_amount : Int) (n : Nat) : Prop :=
  (split_amount_cent total_amount n).length = n
    ∧ (split_amount_cent total_amount n).sum = total_amount
    ∧ (∀ i, i < n - 1 →
        (split_amount_cent total_amount n).getD i 0 = Int.fdiv total_amount n)
    ∧ (split_amount_cent total_amount n).getD (n - 1) 0
        = total_amount - Int.fdiv total_amount n * (n - 1)

instance (t : Int) (n : Nat) : Decidable (split_claim_as_stated t n) := by
  unfold split_claim_as_stated; infer_instance

/-- The installment-selection predicate exactly as the specification states
it: an installment of one of the courier's ACTIVE plans, with status in
{DUE, PARTIAL, ROLLED} and `due_closing_seq ≤ S`. -/
def due_installment_spec (db : DB) (courier_id : Nat) (S : Int)
    (li : LoanInstallment) : Prop :=
  (∃ lp ∈ db.plans, lp.id = li.plan_id ∧ lp.courier_id = courier_id
      ∧ lp.status = .ACTIVE)
    ∧ (li.status = .DUE ∨ li.status = .PARCIAL ∨ li.status = .ROLLED)
    ∧ li.due_closing_seq ≤ S

instance (db : DB) (cid : Nat) (S : Int) (li : LoanInstallment) :
    Decidable (due_installment_spec db cid S li) := by
  unfold due_installment_spec; infer_instance

/-- The claim's description of one installment-application step, written
from the specification's words (plus the amendment's skip clause): compute
`applied = min(remaining budget, remaining amount)` and rewrite the
installment's row in one pass — `paid_amount` grows by `applied`; if the
remaining amount net of `applied` is ≤ 0 (≤ the negligible epsilon at cent
granularity) the row becomes PAID, otherwise it becomes PARTIAL when
something was applied or ROLLED when nothing was, with `due_closing_seq`
pushed forward by one; an application record is logged exactly when
`applied > 0`, and the budget shrinks by `applied`. -/
def inst_step_spec (week_id : Nat) (st : InstLoopState)
    (inst : LoanInstallment) : InstLoopState :=
  let remaining := remaining_installment_amount inst
  if remaining ≤ 0 then st
  else
    let applied := min st.to_apply remaining
    { installments := st.installments.map (fun li =>
        if li.id = inst.id then
          let li' := { li with paid_amount := li.paid_amount + applied }
          if remaining - applied ≤ 0 then
            { li' with status := .PAID }
          else if 0 < applied then
            { li' with status := .PARCIAL,
                       due_closing_seq := li'.due_closing_seq + 1 }
          else
            { li' with status := .ROLLED,
                       due_closing_seq := li'.due_closing_seq + 1 }
        else li)
      applications :=
        st.applications ++ (if 0 < applied then [⟨inst.id, week_id, applied⟩] else [])
      to_apply := st.to_apply - applied }

/-- The claim's description of the plan sweep: a plan of the courier that is
ACTIVE and has no installment left in {DUE, PARTIAL, ROLLED} (in the
post-application table `insts`) is marked DONE. -/
def plan_sweep_spec (courier_id : Nat) (insts : List LoanInstallment)
    (lp : LoanPlan) : LoanPlan :=
  if lp.courier_id = courier_id ∧ lp.status = .ACTIVE
      ∧ ¬ ∃ li ∈ insts, li.plan_id = lp.id
            ∧ (li.status = .DUE ∨ li.status = .PARCIAL ∨ li.status = .ROLLED)
  then { lp with status := .DONE }
  else lp

/-- The snapshot rows written by a successful close: one `WeekPayout` per
preview row with a non-null courier. -/
def snapshot_rows (w : Week) (rows : List PreviewRow) : List WeekPayout :=
  rows.filterMap (fun r => r.courier_id.map (fun cid => mk_payout w r cid))

/-- Everything in the store other than the weeks table and the id counter. -/
def non_week_frame (db db' : DB) : Prop :=
  db'.rides = db.rides ∧ db'.ledger = db.ledger ∧ db'.plans = db.plans
    ∧ db'.installments = db.installments ∧ db'.applications = db.applications
    ∧ db'.payouts = db.payouts ∧ db'.couriers = db.couriers

instance : IsTotal LoanInstallment inst_order :=
  ⟨fun a b => by unfold inst_order; omega⟩

instance : IsTrans LoanInstallment inst_order :=
  ⟨fun a b c hab hbc => by unfold inst_order at *; omega⟩

/-! ## Concrete states used by the claims -/

/-- The week of the §8 scenario: OPEN, `closing_seq` 5, a 7-day range. -/
def scenario_week : Week :=
  { id := 1, closing_seq := 5, start_date := 100, end_date := 106,
    status := .OPEN }

/-- The §8 scenario state: courier 10 has one in-scope OK delivery worth
200.00 (20000 cents), an EXTRA of 20.00, a VALE of 10.00, and a single due
installment of 50.00 (`paid_amount` 0) on an ACTIVE prior plan. -/
def scenario_db : DB :=
  { weeks := [scenario_week]
    rides := [{ id := 100, courier_id := some 10, fee_type := 20000,
                value_raw := 0, status := .OK, is_cancelled := none,
                order_date := 101, week_id := 1, paid_in_week_id := none }]
    ledger := [{ id := 200, courier_id := 10, week_id := 1,
                 effective_date := 101, type := .EXTRA, amount := 2000 },
               { id := 201, courier_id := 10, week_id := 1,
                 effective_date := 102, type := .VALE, amount := 1000 }]
    plans := [{ id := 300, courier_id := 10, total_amount := 5000,
                n_installments := 1, status := .ACTIVE, start_closing_seq := 4 }]
    installments := [{ id := 400, plan_id := 300, installment_no := 1,
                       due_closing_seq := 4, amount := 5000, paid_amount := 0,
                       status := .DUE }]
    applications := []
    payouts := []
    couriers := [{ id := 10, nome_resumido := "C" }]
    seq := 1000 }

/-- A state with a reachable zero-amount DUE installment (created by
splitting a 1-cent loan into 3 parts: `[0, 0, 1]`): plan 300 still owes
installment 1 of amount 0. -/
def zero_inst_db : DB :=
  { weeks := [scenario_week]
    rides := [{ id := 100, courier_id := some 10, fee_type := 10000,
                value_raw := 0, status := .OK, is_cancelled := none,
                order_date := 101, week_id := 1, paid_in_week_id := none }]
    ledger := []
    plans := [{ id := 300, courier_id := 10, total_amount := 1,
                n_installments := 3, status := .ACTIVE, start_closing_seq := 5 }]
    installments := [{ id := 400, plan_id := 300, installment_no := 1,
                       due_closing_seq := 5, amount := 0, paid_amount := 0,
                       status := .DUE }]
    applications := []
    payouts := []
    couriers := [{ id := 10, nome_resumido := "C" }]
    seq := 1000 }

/-- A state whose only activity in week 1 is one pending (assigned) ride —
used against the closing gate. -/
def pending_db : DB :=
  { weeks := [scenario_week]
    rides := [{ id := 100, courier_id := some 10, fee_type := 10000,
                value_raw := 0, status := .PENDENTE_REVISAO,
                is_cancelled := none, order_date := 101, week_id := 1,
                paid_in_week_id := none }]
    ledger := [], plans := [], installments := [], applications := []
    payouts := [{ week_id := 1, courier_id := 10, rides_amount := 123,
                  extras_amount := 0, vales_amount := 0,
                  installments_amount := 0, net_amount := 123,
                  pending_count := 0, is_flag_red := false }]
    couriers := [{ id := 10, nome_resumido := "C" }]
    seq := 1000 }

/-- The advance-cap scenario: courier 10 earned 100.00 on day 101 of OPEN
week 1 and already holds a 30.00 VALE for that day. -/
def advance_db : DB :=
  { weeks := [scenario_week]
    rides := [{ id := 100, courier_id := some 10, fee_type := 10000,
                value_raw := 0, status := .OK, is_cancelled := none,
                order_date := 101, week_id := 1, paid_in_week_id := none }]
    ledger := [{ id := 200, courier_id := 10, week_id := 1,
                 effective_date := 101, type := .VALE, amount := 3000 }]
    plans := [], installments := [], applications := [], payouts := []
    couriers := [{ id := 10, nome_resumido := "C" }]
    seq := 1000 }

/-- A CLOSED week owning ledger entry 5. -/
def closed_week_ledger_db : DB :=
  { weeks := [{ id := 1, closing_seq := 5, start_date := 100, end_date := 106,
                status := .CLOSED }]
    rides := []
    ledger := [{ id := 5, courier_id := 10, week_id := 1,
                 effective_date := 101, type := .EXTRA, amount := 2000 }]
    plans := [], installments := [], applications := [], payouts := []
    couriers := [{ id := 10, nome_resumido := "C" }]
    seq := 1000 }

/-- One CLOSED week covering 102–108 (102 is a Thursday), nothing after it. -/
def closed_walk_db : DB :=
  { weeks := [{ id := 1, closing_seq := 5, start_date := 102, end_date := 108,
                status := .CLOSED }]
    rides := [], ledger := [], plans := [], installments := [],
    applications := [], payouts := [], couriers := []
    seq := 2 }

/-! ## Theorems -/

/-- C1: closing the §8 scenario state yields the stated snapshot: with
rides 200.00, EXTRA 20.00, VALE 10.00 and one due installment of 50.00 on an
ACTIVE prior plan, `close_week` succeeds, writes a `WeekPayout` row with
`installments_amount` = 50.00 and `net_amount` = 160.00 (pre-installment net
210.00), marks the installment PAID (fully applied), marks the plan DONE (no
other open installment), and closes the week. -/
theorem claim_C1_scenario_close :
    (close_week scenario_db 1).map (fun p =>
        ((p.1.payouts,
          p.1.installments.map (fun li => (li.paid_amount, li.status))),
         (p.1.plans.map LoanPlan.status, p.1.weeks.map Week.status),
         p.2))
      = .ok
        (([{ week_id := 1, courier_id := 10, rides_amount := 20000,
             extras_amount := 2000, vales_amount := 1000,
             installments_amount := 5000, net_amount := 16000,
             pending_count := 0, is_flag_red := false }],
          [(5000, .PAID)]),
         ([.DONE], [.CLOSED]), 1) := by decide

/-- C2 counterexample: the claim quantifies over every 2-decimal
`total_amount`, but for a negative total the code truncates the base toward
zero (`ROUND_DOWN`) instead of flooring: at `total = -0.01`, `n = 2` the code
produces `[0.00, -0.01]` while the stated property demands
`[floor(-0.005) = -0.01, 0.00]`. -/
theorem claim_C2_counterexample : ¬ split_claim_as_stated (-1) 2 := by decide

/-- C3 counterexample: a reachable zero-amount DUE installment (from the
1-cent split `[0, 0, 1]`) is skipped by the `remaining <= 0` guard in
`close_week`, so after closing it is still DUE (and its plan still ACTIVE),
whereas the claim says a considered installment with remaining amount ≤ ε is
marked PAID. -/
theorem claim_C3_counterexample :
    (close_week zero_inst_db 1).map (fun p =>
        (p.1.installments.map LoanInstallment.status,
         p.1.plans.map LoanPlan.status))
      = .ok ([.DUE], [.ACTIVE])
    ∧ InstStatus.DUE ≠ .PAID := ⟨by decide, by decide⟩

/-- C7: with `day_gain` = 100.00 and `existing_vales` = 30.00, requesting a
120.00 advance. The code as written raises `NameError` at its week-status
check (line 118 reads the unbound name `week`), so the request never
succeeds; reading that line as the intended `w.status` check, the call
returns `vale_amount` = 70.00 and `loan_amount` = 50.00, creating a VALE
ledger entry of 70.00 and a 3-installment loan plan of total 50.00
(split `[16.66, 16.66, 16.68]`). -/
theorem claim_C7_advance_cap :
    create_ledger_entry advance_db 10 1 101 .VALE 12000
        = .error (.nameError "week")
    ∧ (create_ledger_entry_fixed advance_db 10 1 101 .VALE 12000).map
          (fun p =>
            ((p.2.vale_amount, p.2.loan_amount, p.2.loan_n_installments),
             (p.1.plans.map (fun lp => (lp.total_amount, lp.n_installments)),
              p.1.installments.map LoanInstallment.amount,
              p.1.ledger.map LedgerEntry.amount)))
        = .ok ((7000, 5000, some 3),
               ([(5000, 3)], [1666, 1666, 1668], [3000, 7000])) :=
  ⟨by decide, by decide⟩

/-- C8 counterexample: on the §8 scenario state (a due installment of 50.00
and positive net), pure preview already returns `installments_amount` =
50.00, not zero: the preview computes the prospective amortization amount
itself rather than leaving the field zero until closing. -/
theorem claim_C8_counterexample :
    (compute_week_payout_preview scenario_db 1).map (fun rows =>
        rows.map PreviewRow.installments_amount) = .ok [5000]
    ∧ (5000 : Int) ≠ 0 := ⟨by decide, by decide⟩

/-- C9 counterexample: `delete_ledger_entry` never consults the owning
week's status: deleting entry 5, owned by a CLOSED week, succeeds and
removes the entry. -/
theorem claim_C9_counterexample :
    closed_week_ledger_db.weeks.map Week.status = [.CLOSED]
    ∧ delete_ledger_entry closed_week_ledger_db 5
        = .ok { closed_week_ledger_db with ledger := [] } :=
  ⟨by decide, by decide⟩

/-- Helper: indexing into a replicated list. -/
theorem getD_replicate_of_lt {k i : Nat} (b d : Int) (h : i < k) :
    (List.replicate k b).getD i d = b := by
  simp [List.getD_eq_getElem?_getD, List.getElem?_replicate, h]

/-- C2 (amended): for every 2-decimal total and every `n ≥ 1` the split has
exactly `n` parts summing exactly to the total, the first `n − 1` parts all
equal to the ROUND_DOWN (toward-zero) quantization of `total / n`, and the
last part equal to the remainder `total − base · (n − 1)` — so only the last
part absorbs the rounding remainder.  (Toward-zero equals floor for
nonnegative totals; the original floor phrasing fails for negative ones.) -/
theorem claim_C2_split_exactness (t : Int) (n : Nat) (h : 1 ≤ n) :
    (split_amount_cent t n).length = n
      ∧ (split_amount_cent t n).sum = t
      ∧ (∀ i, i < n - 1 → (split_amount_cent t n).getD i 0 = Int.tdiv t n)
      ∧ (split_amount_cent t n).getD (n - 1) 0
          = t - Int.tdiv t n * (n - 1) := by
  match n, h with
  | 1, _ =>
      refine ⟨rfl, by simp [split_amount_cent], ?_, by simp [split_amount_cent]⟩
      intro i hi
      omega
  | (k + 2), _ =>
      have hne0 : (k + 2) ≠ 0 := by omega
      have hne1 : (k + 2) ≠ 1 := by omega
      have hsplit : split_amount_cent t (k + 2)
          = List.replicate (k + 1) (Int.tdiv t (k + 2))
              ++ [t - Int.tdiv t (k + 2) * (k + 2 - 1)] := by
        simp [split_amount_cent, hne0, hne1]
      refine ⟨?_, ?_, ?_, ?_⟩
      · simp [hsplit]
      · have harith : ((k : Int) + 1) * Int.tdiv t (k + 2)
            + (t - Int.tdiv t (k + 2) * ((k : Int) + 2 - 1)) = t := by ring
        simp only [hsplit, List.sum_append, List.sum_replicate, List.sum_cons,
          List.sum_nil, nsmul_eq_mul]
        push_cast
        linarith [harith]
      · intro i hi
        have hi' : i < (List.replicate (k + 1) (Int.tdiv t (k + 2))).length := by
          simp; omega
        rw [hsplit, List.getD_append _ _ _ _ hi']
        exact getD_replicate_of_lt _ _ (by omega)
      · have hlen : (List.replicate (k + 1) (Int.tdiv t (k + 2))).length
            ≤ k + 2 - 1 := by simp
        rw [hsplit, List.getD_append_right _ _ _ _ hlen]
        simp

/-- C2 witness: the amended split property at `total` = 1.00, `n` = 3. -/
theorem claim_C2_split_exactness_witness :
    (split_amount_cent 100 3).length = 3
      ∧ (split_amount_cent 100 3).sum = 100
      ∧ (∀ i, i < 3 - 1 → (split_amount_cent 100 3).getD i 0 = Int.tdiv 100 3)
      ∧ (split_amount_cent 100 3).getD (3 - 1) 0
          = 100 - Int.tdiv 100 3 * (3 - 1) :=
  claim_C2_split_exactness 100 3 (by decide)

/-- C8 (amended): `compute_week_payout_preview` itself computes the
prospective amortization — every returned row satisfies
`installments_amount = max(0, min(pre-installment net, total remaining due))`
and `net_amount = pre-installment net − installments_amount`; the field is
not zero in pure preview mode whenever due installments meet positive net. -/
theorem claim_C8_preview_installments (db : DB) (week_id : Nat) (w : Week)
    (rows : List PreviewRow)
    (hw : get_week_or_404 db week_id = .ok w)
    (hrows : compute_week_payout_preview db week_id = .ok rows) :
    ∀ r ∈ rows,
      r.installments_amount
          = max 0 (min (r.rides_amount + r.extras_amount - r.vales_amount)
              (installment_due_total db r.courier_id w.closing_seq))
        ∧ r.net_amount = r.rides_amount + r.extras_amount - r.vales_amount
            - r.installments_amount := by
  intro r hr
  have hrows' : rows
      = ((preview_keys db week_id).map (preview_row db w)).insertionSort
          row_order := by
    unfold compute_week_payout_preview at hrows
    rw [hw] at hrows
    simp only [Bind.bind, Except.bind, pure, Except.pure, Except.ok.injEq]
      at hrows
    exact hrows.symm
  have hmem : r ∈ (preview_keys db week_id).map (preview_row db w) := by
    rw [hrows'] at hr
    exact (List.perm_insertionSort row_order _).mem_iff.mp hr
  obtain ⟨cid, _, rfl⟩ := List.mem_map.mp hmem
  exact ⟨rfl, rfl⟩

/-- C8 witness: the amended preview property on the §8 scenario state, at
its single row, which carries `installments_amount` = 50.00. -/
theorem claim_C8_preview_installments_witness :
    PreviewRow.installments_amount
        { week_id := 1, courier_id := some 10, courier_nome := some "C",
          rides_count := 1, rides_amount := 20000,
          rides_value_raw_amount := 0, extras_amount := 2000,
          vales_amount := 1000, installments_amount := 5000,
          pending_count := 0, net_amount := 16000, is_flag_red := false }
        = max 0 (min (20000 + 2000 - 1000)
            (installment_due_total scenario_db (some 10)
              scenario_week.closing_seq))
      ∧ (16000 : Int) = 20000 + 2000 - 1000 - 5000 :=
  claim_C8_preview_installments scenario_db 1 scenario_week
    [{ week_id := 1, courier_id := some 10, courier_nome := some "C",
       rides_count := 1, rides_amount := 20000, rides_value_raw_amount := 0,
       extras_amount := 2000, vales_amount := 1000,
       installments_amount := 5000, pending_count := 0, net_amount := 16000,
       is_flag_red := false }] (by decide) (by decide)
    { week_id := 1, courier_id := some 10, courier_nome := some "C",
      rides_count := 1, rides_amount := 20000, rides_value_raw_amount := 0,
      extras_amount := 2000, vales_amount := 1000,
      installments_amount := 5000, pending_count := 0, net_amount := 16000,
      is_flag_red := false } (by decide)

/-- C9 (amended): deletion of a ledger entry is unguarded by week status —
for EVERY database state (whatever the owning week's status), deleting an
existing entry succeeds and removes exactly that entry, and only a missing
entry fails. -/
theorem claim_C9_delete_unguarded (db : DB) (ledger_id : Nat) :
    (∀ le, db.ledger.find? (fun e => e.id == ledger_id) = some le →
        delete_ledger_entry db ledger_id
          = .ok { db with
              ledger := db.ledger.filter (fun e => !(e.id == ledger_id)) })
    ∧ (db.ledger.find? (fun e => e.id == ledger_id) = none →
        delete_ledger_entry db ledger_id = .error .ledgerEntryNotFound) := by
  constructor
  · intro le hle
    unfold delete_ledger_entry
    rw [hle]
  · intro hnone
    unfold delete_ledger_entry
    rw [hnone]

/-- C9 witness: deleting entry 5 of the CLOSED week succeeds. -/
theorem claim_C9_delete_unguarded_witness :
    delete_ledger_entry closed_week_ledger_db 5
      = .ok { closed_week_ledger_db with
          ledger := closed_week_ledger_db.ledger.filter (fun e => !(e.id == 5)) } :=
  (claim_C9_delete_unguarded closed_week_ledger_db 5).1
    { id := 5, courier_id := 10, week_id := 1, effective_date := 101,
      type := .EXTRA, amount := 2000 } (by decide)

/-- C6: the code as written NEVER completes an advance: whenever the week
exists, `create_ledger_entry` raises `NameError` (line 118 reads the unbound
name `week`), for every courier, date, type and amount — contradicting both
the claim and the code's own comment ("do not fail on exceeding day gain").
With line 118 read as the intended `w.status` check, the claim holds: every
valid VALE request (OPEN week, existing courier, date in range, positive
amount) succeeds, with `vale_amount + loan_amount = amount`, both parts
nonnegative, and the overflow part (when positive) creating a loan plan of
exactly that total. -/
theorem claim_C6_vale_always_succeeds :
    (∀ (db : DB) (courier_id week_id : Nat) (d amount : Int) (w : Week),
        get_week_or_404 db week_id = .ok w →
        create_ledger_entry db courier_id week_id d .VALE amount
          = .error (.nameError "week"))
    ∧ (∀ (db : DB) (courier_id week_id : Nat) (d amount : Int) (w : Week),
        get_week_or_404 db week_id = .ok w → w.status = .OPEN →
        db.couriers.find? (fun k => k.id == courier_id) ≠ none →
        w.start_date ≤ d → d ≤ w.end_date → 0 < amount →
        ∃ db' out,
          create_ledger_entry_fixed db courier_id week_id d .VALE amount
              = .ok (db', out)
            ∧ out.vale_amount + out.loan_amount = amount
            ∧ 0 ≤ out.vale_amount ∧ 0 ≤ out.loan_amount
            ∧ (0 < out.loan_amount →
                db'.plans.map LoanPlan.total_amount
                  = db.plans.map LoanPlan.total_amount ++ [out.loan_amount])) := by
  constructor
  · intro db c wid d a w hw
    unfold create_ledger_entry
    rw [hw]
    rfl
  · intro db c wid d a w hw hopen hcour hd1 hd2 hamt
    unfold create_ledger_entry_fixed
    rw [hw]
    simp only [Bind.bind, Except.bind]
    rw [if_neg (by simp [hopen])]
    rw [if_neg hcour]
    rw [if_neg (by omega)]
    rw [if_neg (by omega)]
    simp only [pure, Except.pure]
    refine ⟨_, _, rfl, ?_, ?_, ?_, ?_⟩
    · simp only []
      omega
    · simp only []
      omega
    · simp only []
      omega
    · intro hloan
      simp only [] at hloan ⊢
      rw [if_pos hloan]
      by_cases hv : 0 < min a (max 0 (((db.rides.filter (fun r =>
          r.week_id == wid && r.paid_in_week_id == none
            && r.courier_id == some c && r.status == .OK
            && not_cancelled r && r.order_date == d)).map Ride.fee_type).sum
          - ((db.ledger.filter (fun le =>
              le.week_id == wid && le.courier_id == c
                && le.type == .VALE && le.effective_date == d)).map
              LedgerEntry.amount).sum))
      · rw [if_pos hv]
        simp [create_loan_plan_with_installments]
      · rw [if_neg hv]
        simp [create_loan_plan_with_installments]

/-- C6 witness: both conjuncts at the advance-cap scenario: the faithful
model fails with `NameError` on the valid request, and the intended model
succeeds splitting 120.00 into 70.00 + 50.00. -/
theorem claim_C6_vale_always_succeeds_witness :
    create_ledger_entry advance_db 10 1 101 .VALE 12000
        = .error (.nameError "week")
    ∧ ∃ db' out,
        create_ledger_entry_fixed advance_db 10 1 101 .VALE 12000
            = .ok (db', out)
          ∧ out.vale_amount + out.loan_amount = 12000
          ∧ 0 ≤ out.vale_amount ∧ 0 ≤ out.loan_amount
          ∧ (0 < out.loan_amount →
              db'.plans.map LoanPlan.total_amount
                = advance_db.plans.map LoanPlan.total_amount
                    ++ [out.loan_amount]) :=
  ⟨claim_C6_vale_always_succeeds.1 advance_db 10 1 101 12000 scenario_week
      (by decide),
   claim_C6_vale_always_succeeds.2 advance_db 10 1 101 12000 scenario_week
      (by decide) (by decide) (by decide) (by decide) (by decide) (by decide)⟩

/-- C4: for an OPEN week with a valid date range, if the computed preview
carries any pending record or any unassigned row with OK rides, `close_week`
fails with `WEEK_HAS_PENDINGS` reporting the total pending count and the
unassigned-OK-rides count, and the transaction leaves the state untouched
(no snapshot is written, the week stays OPEN). -/
theorem claim_C4_closing_gate (db : DB) (week_id : Nat) (w : Week)
    (rows : List PreviewRow)
    (hw : get_week_or_404 db week_id = .ok w)
    (hopen : w.status = .OPEN)
    (hov : validate_no_week_overlap db w.start_date w.end_date (some w.id)
      = .ok ())
    (hrows : compute_week_payout_preview db week_id = .ok rows)
    (hgate : 0 < (rows.map PreviewRow.pending_count).sum
      ∨ rows.filter (fun r => r.courier_id == none && r.rides_count > 0) ≠ []) :
    close_week db week_id
        = .error (.WEEK_HAS_PENDINGS ((rows.map PreviewRow.pending_count).sum)
            (((rows.filter (fun r =>
                r.courier_id == none && r.rides_count > 0)).map
                PreviewRow.rides_count).sum))
      ∧ close_week_run db week_id
          = (db,
             .error (.WEEK_HAS_PENDINGS
               ((rows.map PreviewRow.pending_count).sum)
               (((rows.filter (fun r =>
                   r.courier_id == none && r.rides_count > 0)).map
                   PreviewRow.rides_count).sum))) := by
  have hclose : close_week db week_id
      = .error (.WEEK_HAS_PENDINGS ((rows.map PreviewRow.pending_count).sum)
          (((rows.filter (fun r =>
              r.courier_id == none && r.rides_count > 0)).map
              PreviewRow.rides_count).sum)) := by
    unfold close_week
    rw [hw]
    simp only [Bind.bind, Except.bind]
    rw [if_neg (by simp [hopen])]
    rw [hov]
    simp only [Bind.bind, Except.bind]
    rw [hrows]
    simp only [Bind.bind, Except.bind]
    rw [if_pos hgate]
    rfl
  exact ⟨hclose, by unfold close_week_run; rw [hclose]⟩

/-- C4 witness: the gate at the one-pending-ride state: the close fails with
`WEEK_HAS_PENDINGS 1 0` and the state (including the stale payout row) is
untouched. -/
theorem claim_C4_closing_gate_witness :
    close_week pending_db 1
        = .error (.WEEK_HAS_PENDINGS
            ((([{ week_id := 1, courier_id := some 10,
                  courier_nome := some "C", rides_count := 0,
                  rides_amount := 0, rides_value_raw_amount := 0,
                  extras_amount := 0, vales_amount := 0,
                  installments_amount := 0, pending_count := 1,
                  net_amount := 0, is_flag_red := false }]
                : List PreviewRow).map PreviewRow.pending_count).sum)
            (((([{ week_id := 1, courier_id := some 10,
                   courier_nome := some "C", rides_count := 0,
                   rides_amount := 0, rides_value_raw_amount := 0,
                   extras_amount := 0, vales_amount := 0,
                   installments_amount := 0, pending_count := 1,
                   net_amount := 0, is_flag_red := false }]
                 : List PreviewRow).filter (fun r =>
                    r.courier_id == none && r.rides_count > 0)).map
                PreviewRow.rides_count).sum))
      ∧ close_week_run pending_db 1
          = (pending_db,
             .error (.WEEK_HAS_PENDINGS
               ((([{ week_id := 1, courier_id := some 10,
                     courier_nome := some "C", rides_count := 0,
                     rides_amount := 0, rides_value_raw_amount := 0,
                     extras_amount := 0, vales_amount := 0,
                     installments_amount := 0, pending_count := 1,
                     net_amount := 0, is_flag_red := false }]
                   : List PreviewRow).map PreviewRow.pending_count).sum)
               (((([{ week_id := 1, courier_id := some 10,
                      courier_nome := some "C", rides_count := 0,
                      rides_amount := 0, rides_value_raw_amount := 0,
                      extras_amount := 0, vales_amount := 0,
                      installments_amount := 0, pending_count := 1,
                      net_amount := 0, is_flag_red := false }]
                    : List PreviewRow).filter (fun r =>
                       r.courier_id == none && r.rides_count > 0)).map
                   PreviewRow.rides_count).sum))) :=
  claim_C4_closing_gate pending_db 1 scenario_week
    [{ week_id := 1, courier_id := some 10, courier_nome := some "C",
       rides_count := 0, rides_amount := 0, rides_value_raw_amount := 0,
       extras_amount := 0, vales_amount := 0, installments_amount := 0,
       pending_count := 1, net_amount := 0, is_flag_red := false }]
    (by decide) (by decide) (by decide) (by decide) (by decide)

/-- Helper: one `process_courier` pass appends exactly the courier's snapshot
row (nothing for the null-courier row) to the payouts table. -/
theorem process_courier_payouts (w : Week) (db : DB) (r : PreviewRow) :
    (process_courier w db r).payouts
      = db.payouts ++ (match r.courier_id with
          | none => []
          | some cid => [mk_payout w r cid]) := by
  cases hc : r.courier_id with
  | none => simp [process_courier, hc]
  | some cid => simp [process_courier, hc]

/-- Helper: `process_courier` never touches the weeks table. -/
theorem process_courier_weeks (w : Week) (db : DB) (r : PreviewRow) :
    (process_courier w db r).weeks = db.weeks := by
  cases hc : r.courier_id with
  | none => simp [process_courier, hc]
  | some cid => simp [process_courier, hc]

/-- Helper: the snapshot loop of `close_week` appends exactly
`snapshot_rows` to the payouts table. -/
theorem foldl_process_courier_payouts (w : Week) :
    ∀ (rows : List PreviewRow) (db : DB),
    (rows.foldl (process_courier w) db).payouts
      = db.payouts ++ snapshot_rows w rows := by
  intro rows
  induction rows with
  | nil => intro db; simp [snapshot_rows]
  | cons r rs ih =>
      intro db
      simp only [List.foldl_cons]
      rw [ih, process_courier_payouts]
      cases hc : r.courier_id with
      | none => simp [snapshot_rows, hc]
      | some cid => simp [snapshot_rows, hc]

/-- Helper: the snapshot loop never touches the weeks table. -/
theorem foldl_process_courier_weeks (w : Week) :
    ∀ (rows : List PreviewRow) (db : DB),
    (rows.foldl (process_courier w) db).weeks = db.weeks := by
  intro rows
  induction rows with
  | nil => intro db; rfl
  | cons r rs ih =>
      intro db
      simp only [List.foldl_cons]
      rw [ih, process_courier_weeks]

/-- Helper: every snapshot row is stamped with the closing week's id. -/
theorem snapshot_rows_week_id (w : Week) (rows : List PreviewRow) :
    ∀ x ∈ snapshot_rows w rows, x.week_id = w.id := by
  intro x hx
  obtain ⟨r, _, hmap⟩ := List.mem_filterMap.mp hx
  cases hc : r.courier_id with
  | none => rw [hc] at hmap; cases hmap
  | some cid =>
      rw [hc] at hmap
      obtain ⟨h1⟩ : mk_payout w r cid = x := by simpa using hmap
      rfl

/-- C5: closing is all-or-nothing.  A failed `close_week` publishes exactly
the prior state (week still OPEN, loans/ledger/payouts untouched); a
successful one publishes a state whose rows for the week are exactly the
newly computed snapshot (the prior rows are gone), other weeks' rows are
untouched, and the week is flipped to CLOSED — never a mixture. -/
theorem claim_C5_closing_atomicity (db : DB) (week_id : Nat) :
    (∀ e, (close_week_run db week_id).2 = .error e
        → (close_week_run db week_id).1 = db)
    ∧ (∀ n, (close_week_run db week_id).2 = .ok n →
        ∃ w rows,
          get_week_or_404 db week_id = .ok w
          ∧ compute_week_payout_preview db week_id = .ok rows
          ∧ n = rows.length
          ∧ (close_week_run db week_id).1.payouts
              = db.payouts.filter (fun p => !(p.week_id == week_id))
                  ++ snapshot_rows w rows
          ∧ (close_week_run db week_id).1.payouts.filter
                (fun p => p.week_id == week_id) = snapshot_rows w rows
          ∧ (close_week_run db week_id).1.payouts.filter
                (fun p => !(p.week_id == week_id))
              = db.payouts.filter (fun p => !(p.week_id == week_id))
          ∧ (close_week_run db week_id).1.weeks
              = db.weeks.map (fun x =>
                  if x.id == w.id then { x with status := .CLOSED } else x)) := by
  constructor
  · intro e he
    cases hcw : close_week db week_id with
    | ok p => simp [close_week_run, hcw] at he
    | error e' => simp [close_week_run, hcw]
  · intro n hn
    cases hcw : close_week db week_id with
    | error e => simp [close_week_run, hcw] at hn
    | ok p =>
        simp only [close_week_run, hcw] at hn ⊢
        unfold close_week at hcw
        cases hw : get_week_or_404 db week_id with
        | error e => rw [hw] at hcw; simp [Bind.bind, Except.bind] at hcw
        | ok w =>
            rw [hw] at hcw
            simp only [Bind.bind, Except.bind] at hcw
            by_cases hst : w.status ≠ .OPEN
            · rw [if_pos hst] at hcw
              simp [throw, throwThe, MonadExceptOf.throw, pure, Except.pure]
                at hcw
            · rw [if_neg hst] at hcw
              cases hov : validate_no_week_overlap db w.start_date w.end_date
                  (some w.id) with
              | error e =>
                  rw [hov] at hcw
                  simp [pure, Except.pure] at hcw
              | ok u =>
                  rw [hov] at hcw
                  have hrows : compute_week_payout_preview db week_id
                      = .ok (((preview_keys db week_id).map
                          (preview_row db w)).insertionSort row_order) := by
                    unfold compute_week_payout_preview
                    rw [hw]
                    rfl
                  rw [hrows] at hcw
                  simp only [Bind.bind, Except.bind] at hcw
                  set rows := ((preview_keys db week_id).map
                      (preview_row db w)).insertionSort row_order with hrowsdef
                  by_cases hgate : 0 < (rows.map PreviewRow.pending_count).sum
                      ∨ rows.filter (fun r =>
                          r.courier_id == none && r.rides_count > 0) ≠ []
                  · rw [if_pos hgate] at hcw
                    simp [throw, throwThe, MonadExceptOf.throw, pure,
                      Except.pure] at hcw
                  · rw [if_neg hgate] at hcw
                    simp only [pure, Except.pure, Except.ok.injEq] at hcw
                    subst hcw
                    have hwid : w.id = week_id := by
                      unfold get_week_or_404 at hw
                      cases hfind : db.weeks.find? (fun x => x.id == week_id) with
                      | none => rw [hfind] at hw; cases hw
                      | some w0 =>
                          rw [hfind] at hw
                          have hw0 : w0 = w := by simpa using hw
                          have := List.find?_some hfind
                          rw [hw0] at this
                          simpa using this
                    refine ⟨w, rows, rfl, hrows, ?_, ?_, ?_, ?_, ?_⟩
                    · exact (by simpa using hn : rows.length = n).symm
                    · simp only [foldl_process_courier_payouts]
                    · simp only [foldl_process_courier_payouts]
                      rw [List.filter_append]
                      have h1 : (db.payouts.filter (fun p =>
                          !(p.week_id == week_id))).filter (fun p =>
                          p.week_id == week_id) = [] := by
                        rw [List.filter_filter]
                        apply List.filter_eq_nil_iff.mpr
                        intro a _
                        cases h : (a.week_id == week_id) <;> simp [h]
                      have h2 : (snapshot_rows w rows).filter (fun p =>
                          p.week_id == week_id) = snapshot_rows w rows := by
                        apply List.filter_eq_self.mpr
                        intro a ha
                        have := snapshot_rows_week_id w rows a ha
                        simp [this, hwid]
                      rw [h1, h2, List.nil_append]
                    · simp only [foldl_process_courier_payouts]
                      rw [List.filter_append]
                      have h1 : (db.payouts.filter (fun p =>
                          !(p.week_id == week_id))).filter (fun p =>
                          !(p.week_id == week_id))
                          = db.payouts.filter (fun p =>
                              !(p.week_id == week_id)) := by
                        apply List.filter_eq_self.mpr
                        intro a ha
                        exact (List.mem_filter.mp ha).2
                      have h2 : (snapshot_rows w rows).filter (fun p =>
                          !(p.week_id == week_id)) = [] := by
                        apply List.filter_eq_nil_iff.mpr
                        intro a ha
                        have := snapshot_rows_week_id w rows a ha
                        simp [this, hwid]
                      rw [h1, h2, List.append_nil]
                    · simp only [foldl_process_courier_weeks]

/-- C5 witness: the success side at the §8 scenario: the published rows for
week 1 are exactly the new snapshot. -/
theorem claim_C5_closing_atomicity_witness :
    ∃ w rows,
      get_week_or_404 scenario_db 1 = .ok w
      ∧ compute_week_payout_preview scenario_db 1 = .ok rows
      ∧ 1 = rows.length
      ∧ (close_week_run scenario_db 1).1.payouts
          = scenario_db.payouts.filter (fun p => !(p.week_id == 1))
              ++ snapshot_rows w rows
      ∧ (close_week_run scenario_db 1).1.payouts.filter
            (fun p => p.week_id == 1) = snapshot_rows w rows
      ∧ (close_week_run scenario_db 1).1.payouts.filter
            (fun p => !(p.week_id == 1))
          = scenario_db.payouts.filter (fun p => !(p.week_id == 1))
      ∧ (close_week_run scenario_db 1).1.weeks
          = scenario_db.weeks.map (fun x =>
              if x.id == w.id then { x with status := .CLOSED } else x) :=
  (claim_C5_closing_atomicity scenario_db 1).2 1 (by decide)

/-- Helper: the open-status test matches the claim's status set. -/
theorem is_open_inst_status_iff (s : InstStatus) :
    is_open_inst_status s = true
      ↔ (s = .DUE ∨ s = .PARCIAL ∨ s = .ROLLED) := by
  cases s <;> simp [is_open_inst_status]

/-- C3 (amended): installment application during closing.
(1) The installments considered are exactly (a permutation, sorted by
`(due_closing_seq, installment_no)`, of) those of the courier's ACTIVE plans
with status in {DUE, PARTIAL, ROLLED} and `due_closing_seq ≤ S`.
(2) With a nonnegative budget, each processing step behaves exactly as the
claim describes — amended by the skip clause: an installment whose remaining
amount is not positive is left untouched; otherwise
`applied = min(budget, remaining)` is paid in, the installment becomes PAID
when nothing remains (≤ the negligible epsilon), else PARTIAL (if something
was applied) or ROLLED (if nothing was) with `due_closing_seq` pushed
forward by one.
(3) After the courier's pass, exactly those of the courier's ACTIVE plans
with no installment left in {DUE, PARTIAL, ROLLED} are marked DONE. -/
theorem claim_C3_installment_application :
    (∀ (db : DB) (cid : Nat) (S : Int),
      (get_due_installments db cid S).Perm
          (db.installments.filter (fun li =>
            decide (due_installment_spec db cid S li)))
        ∧ List.Sorted inst_order (get_due_installments db cid S))
    ∧ (∀ (wid : Nat) (st : InstLoopState) (inst : LoanInstallment),
        0 ≤ st.to_apply →
        inst_step wid st inst = inst_step_spec wid st inst)
    ∧ (∀ (w : Week) (db : DB) (r : PreviewRow) (cid : Nat),
        r.courier_id = some cid →
        (process_courier w db r).plans
          = db.plans.map (plan_sweep_spec cid
              ((get_due_installments db cid w.closing_seq).foldl
                (inst_step w.id)
                ⟨db.installments, db.applications,
                 r.installments_amount⟩).installments)) := by
  refine ⟨?_, ?_, ?_⟩
  · intro db cid S
    have hfc : db.installments.filter (fun li =>
          db.plans.any (fun lp =>
            lp.id == li.plan_id && lp.courier_id == cid
              && lp.status == .ACTIVE)
            && is_open_inst_status li.status
            && li.due_closing_seq ≤ S)
        = db.installments.filter (fun li =>
            decide (due_installment_spec db cid S li)) := by
      apply List.filter_congr
      intro li _
      rw [Bool.eq_iff_iff]
      simp only [due_installment_spec, List.any_eq_true, Bool.and_eq_true,
        beq_iff_eq, decide_eq_true_eq, is_open_inst_status_iff]
      tauto
    constructor
    · exact hfc ▸ List.perm_insertionSort inst_order _
    · exact List.sorted_insertionSort inst_order _
  · intro wid st inst h0
    unfold inst_step inst_step_spec
    by_cases hrem : remaining_installment_amount inst ≤ 0
    · rw [if_pos hrem, if_pos hrem]
    · rw [if_neg hrem, if_neg hrem]
      simp only []
      by_cases happ : 0 < min st.to_apply (remaining_installment_amount inst)
      · by_cases hrem2 : remaining_installment_amount inst
            - min st.to_apply (remaining_installment_amount inst) ≤ 0
        · rw [if_pos happ, if_pos hrem2]
          simp only [InstLoopState.mk.injEq, List.map_map]
          refine ⟨List.map_congr_left ?_, by simp [happ], trivial⟩
          intro li _
          by_cases hli : li.id = inst.id
          · simp [hli, Function.comp, hrem2, happ]
          · simp [hli, Function.comp]
        · rw [if_pos happ, if_neg hrem2]
          simp only [InstLoopState.mk.injEq, List.map_map]
          refine ⟨List.map_congr_left ?_, by simp [happ], trivial⟩
          intro li _
          by_cases hli : li.id = inst.id
          · simp [hli, Function.comp, hrem2, happ]
          · simp [hli, Function.comp]
      · have hap0 : min st.to_apply (remaining_installment_amount inst) = 0 := by
          omega
        have hrem2 : ¬ (remaining_installment_amount inst
            - min st.to_apply (remaining_installment_amount inst) ≤ 0) := by
          omega
        rw [if_neg happ, if_neg hrem2]
        simp only [InstLoopState.mk.injEq]
        refine ⟨List.map_congr_left ?_, by simp [happ, hap0], by omega⟩
        intro li _
        by_cases hli : li.id = inst.id
        · simp [hli, hrem, hrem2, happ, hap0]
        · simp [hli]
  · intro w db r cid hc
    unfold process_courier
    rw [hc]
    simp only []
    apply List.map_congr_left
    intro lp _
    unfold plan_sweep_spec
    set insts := ((get_due_installments db cid w.closing_seq).foldl
        (inst_step w.id)
        ⟨db.installments, db.applications, r.installments_amount⟩).installments
      with hinsts
    by_cases hcond : lp.courier_id = cid ∧ lp.status = .ACTIVE
        ∧ ¬ ∃ li ∈ insts, li.plan_id = lp.id
              ∧ (li.status = .DUE ∨ li.status = .PARCIAL ∨ li.status = .ROLLED)
    · rw [if_pos ?hb, if_pos hcond]
      case hb =>
        simp only [Bool.and_eq_true, beq_iff_eq, Bool.not_eq_true',
          ← Bool.not_eq_true, List.any_eq_true]
        push_neg
        obtain ⟨h1, h2, h3⟩ := hcond
        refine ⟨⟨h1, h2⟩, ?_⟩
        intro li hli
        by_cases hp : li.plan_id = lp.id
        · cases ho : is_open_inst_status li.status with
          | false => simp [hp, ho]
          | true =>
              exfalso
              exact h3 ⟨li, hli, hp, (is_open_inst_status_iff _).mp ho⟩
        · simp [hp]
    · rw [if_neg ?hb2, if_neg hcond]
      case hb2 =>
        intro hb
        apply hcond
        simp only [Bool.and_eq_true, beq_iff_eq, Bool.not_eq_true',
          ← Bool.not_eq_true, List.any_eq_true] at hb
        push_neg at hb
        obtain ⟨⟨h1, h2⟩, h3⟩ := hb
        refine ⟨h1, h2, ?_⟩
        rintro ⟨li, hli, hp, ho⟩
        have := h3 li hli
        rw [hp] at this
        simp [(is_open_inst_status_iff _).mpr ho] at this

/-- C3 witness: the three amended components at concrete inputs: the due-set
characterization on the §8 scenario, one application step with budget 50.00
on its installment, and the plan sweep for its courier row. -/
theorem claim_C3_installment_application_witness :
    ((get_due_installments scenario_db 10 5).Perm
        (scenario_db.installments.filter (fun li =>
          decide (due_installment_spec scenario_db 10 5 li)))
      ∧ List.Sorted inst_order (get_due_installments scenario_db 10 5))
    ∧ inst_step 1
          ⟨scenario_db.installments, [], 5000⟩
          { id := 400, plan_id := 300, installment_no := 1,
            due_closing_seq := 4, amount := 5000, paid_amount := 0,
            status := .DUE }
        = inst_step_spec 1
            ⟨scenario_db.installments, [], 5000⟩
            { id := 400, plan_id := 300, installment_no := 1,
              due_closing_seq := 4, amount := 5000, paid_amount := 0,
              status := .DUE }
    ∧ (process_courier scenario_week scenario_db
          { week_id := 1, courier_id := some 10, courier_nome := some "C",
            rides_count := 1, rides_amount := 20000,
            rides_value_raw_amount := 0, extras_amount := 2000,
            vales_amount := 1000, installments_amount := 5000,
            pending_count := 0, net_amount := 16000,
            is_flag_red := false }).plans
        = scenario_db.plans.map (plan_sweep_spec 10
            ((get_due_installments scenario_db 10
                scenario_week.closing_seq).foldl
              (inst_step scenario_week.id)
              ⟨scenario_db.installments, scenario_db.applications,
               5000⟩).installments) :=
  ⟨claim_C3_installment_application.1 scenario_db 10 5,
   claim_C3_installment_application.2.1 1
     ⟨scenario_db.installments, [], 5000⟩
     { id := 400, plan_id := 300, installment_no := 1, due_closing_seq := 4,
       amount := 5000, paid_amount := 0, status := .DUE } (by decide),
   claim_C3_installment_application.2.2 scenario_week scenario_db
     { week_id := 1, courier_id := some 10, courier_nome := some "C",
       rides_count := 1, rides_amount := 20000, rides_value_raw_amount := 0,
       extras_amount := 2000, vales_amount := 1000,
       installments_amount := 5000, pending_count := 0, net_amount := 16000,
       is_flag_red := false } 10 rfl⟩

/-- C10 counterexample: the canonical forward walk past a CLOSED week (with
nothing after it) inserts exactly ONE new week — the created week is always
OPEN and immediately terminates the walk — so a single call cannot insert
multiple `Week` rows as the claim asserts. -/
theorem claim_C10_counterexample :
    (get_open_week_for_date closed_walk_db 104).map (fun p =>
        (p.1.weeks.length, p.2.status)) = .ok (2, .OPEN)
    ∧ closed_walk_db.weeks.length = 1 := ⟨by decide, by decide⟩

/-- Helper: one `get_or_create_week_for_date` call either finds an existing
covering week and changes nothing, or inserts exactly one OPEN 7-day
Thursday-anchored week (the returned one), touching nothing else. -/
theorem get_or_create_cases (db : DB) (d : Int) (db' : DB) (w : Week)
    (h : get_or_create_week_for_date db d = .ok (db', w)) :
    (db' = db ∧ w ∈ db.weeks)
      ∨ (db'.weeks = db.weeks ++ [w] ∧ w.status = .OPEN
          ∧ w.end_date = w.start_date + 6 ∧ weekday w.start_date = 3
          ∧ non_week_frame db db') := by
  unfold get_or_create_week_for_date at h
  cases hfind : db.weeks.find? (fun x => x.start_date ≤ d && d ≤ x.end_date) with
  | some w0 =>
      rw [hfind] at h
      simp only [Except.ok.injEq, Prod.mk.injEq] at h
      obtain ⟨h1, h2⟩ := h
      subst h1; subst h2
      exact .inl ⟨rfl, List.mem_of_find?_eq_some hfind⟩
  | none =>
      rw [hfind] at h
      cases hov : validate_no_week_overlap db (thursday_start d)
          (thursday_start d + 6) none with
      | error e =>
          simp [hov] at h
      | ok u =>
          simp only [hov, Except.ok.injEq, Prod.mk.injEq] at h
          obtain ⟨h1, h2⟩ := h
          subst h1; subst h2
          refine .inr ⟨rfl, rfl, rfl, ?_, rfl, rfl, rfl, rfl, rfl, rfl, rfl⟩
          simp only [weekday, thursday_start]
          omega

/-- Helper: the bounded forward walk either inserts nothing (returning a week
already in the store, or the carried last-examined week), or inserts exactly
one OPEN Thursday-anchored week and returns it. -/
theorem open_week_walk_cases (fuel : Nat) :
    ∀ (db : DB) (ww : Week) (cursor : Int) (db' : DB) (w : Week),
    open_week_walk fuel db ww cursor = .ok (db', w) →
    (db' = db ∧ (w = ww ∨ w ∈ db.weeks))
      ∨ (db'.weeks = db.weeks ++ [w] ∧ w.status = .OPEN
          ∧ w.end_date = w.start_date + 6 ∧ weekday w.start_date = 3
          ∧ non_week_frame db db') := by
  induction fuel with
  | zero =>
      intro db ww cursor db' w h
      simp only [open_week_walk, Except.ok.injEq, Prod.mk.injEq] at h
      obtain ⟨h1, h2⟩ := h
      subst h1; subst h2
      exact .inl ⟨rfl, .inl rfl⟩
  | succ k ih =>
      intro db ww cursor db' w h
      unfold open_week_walk at h
      cases hg : get_or_create_week_for_date db cursor with
      | error e =>
          rw [hg] at h
          simp [Bind.bind, Except.bind] at h
      | ok p =>
          obtain ⟨db1, ww1⟩ := p
          rw [hg] at h
          simp only [Bind.bind, Except.bind] at h
          by_cases hst : ww1.status = .OPEN
          · rw [if_pos hst] at h
            simp only [Except.ok.injEq, Prod.mk.injEq] at h
            obtain ⟨h1, h2⟩ := h
            subst h1; subst h2
            rcases get_or_create_cases db cursor db1 ww1 hg with ⟨hdb, hmem⟩ | hcr
            · exact .inl ⟨hdb, .inr hmem⟩
            · exact .inr hcr
          · rw [if_neg hst] at h
            rcases get_or_create_cases db cursor db1 ww1 hg with ⟨hdb, hmem⟩ | hcr
            · rw [hdb] at h
              rcases ih db ww1 (ww1.end_date + 1) db' w h with
                ⟨h1, h2 | h2⟩ | hcr2
              · exact .inl ⟨h1, .inr (h2 ▸ hmem)⟩
              · exact .inl ⟨h1, .inr h2⟩
              · exact .inr hcr2
            · exact absurd hcr.2.1 hst

/-- C10 (amended): the open-week forward walk creates (and commits) at most
ONE week per call: either it returns a week with the weeks table unchanged,
or it appends exactly one new 7-day OPEN Thursday-anchored week — necessarily
the returned week, because every created week is OPEN and terminates the
walk — leaving every other table untouched. -/
theorem claim_C10_walk_inserts_at_most_one (db : DB) (d : Int) (db' : DB)
    (w : Week) (h : get_open_week_for_date db d = .ok (db', w)) :
    (db'.weeks = db.weeks ∧ w ∈ db'.weeks)
      ∨ (db'.weeks = db.weeks ++ [w] ∧ w.status = .OPEN
          ∧ w.end_date = w.start_date + 6 ∧ weekday w.start_date = 3
          ∧ non_week_frame db db') := by
  unfold get_open_week_for_date at h
  cases hg : get_or_create_week_for_date db d with
  | error e =>
      rw [hg] at h
      simp [Bind.bind, Except.bind] at h
  | ok p =>
      obtain ⟨db1, w1⟩ := p
      rw [hg] at h
      simp only [Bind.bind, Except.bind] at h
      by_cases hst : w1.status = .OPEN
      · rw [if_pos hst] at h
        simp only [Except.ok.injEq, Prod.mk.injEq] at h
        obtain ⟨h1, h2⟩ := h
        subst h1; subst h2
        rcases get_or_create_cases db d db1 w1 hg with ⟨hdb, hmem⟩ | hcr
        · rw [hdb]; exact .inl ⟨rfl, hmem⟩
        · exact .inr hcr
      · rw [if_neg hst] at h
        rcases get_or_create_cases db d db1 w1 hg with ⟨hdb, hmem⟩ | hcr
        · rw [hdb] at h
          rcases open_week_walk_cases 26 db w1 (w1.end_date + 1) db' w h with
            ⟨h1, h2 | h2⟩ | hcr2
          · subst h1; exact .inl ⟨rfl, h2 ▸ hmem⟩
          · subst h1; exact .inl ⟨rfl, h2⟩
          · exact .inr hcr2
        · exact absurd hcr.2.1 hst

/-- C10 witness: the walk from a CLOSED week with an empty tail inserts
exactly the one OPEN week `⟨2, 6, 109, 115⟩`. -/
theorem claim_C10_walk_inserts_at_most_one_witness :
    ((DB.weeks { closed_walk_db with
        weeks := closed_walk_db.weeks
          ++ [{ id := 2, closing_seq := 6, start_date := 109, end_date := 115,
                status := .OPEN }]
        seq := 3 } = closed_walk_db.weeks
      ∧ ({ id := 2, closing_seq := 6, start_date := 109, end_date := 115,
           status := .OPEN } : Week)
          ∈ DB.weeks { closed_walk_db with
              weeks := closed_walk_db.weeks
                ++ [{ id := 2, closing_seq := 6, start_date := 109,
                      end_date := 115, status := .OPEN }]
              seq := 3 })
    ∨ (DB.weeks { closed_walk_db with
          weeks := closed_walk_db.weeks
            ++ [{ id := 2, closing_seq := 6, start_date := 109, end_date := 115,
                  status := .OPEN }]
          seq := 3 }
        = closed_walk_db.weeks
            ++ [{ id := 2, closing_seq := 6, start_date := 109, end_date := 115,
                  status := .OPEN }]
      ∧ ({ id := 2, closing_seq := 6, start_date := 109, end_date := 115,
           status := .OPEN } : Week).status = .OPEN
      ∧ ({ id := 2, closing_seq := 6, start_date := 109, end_date := 115,
           status := .OPEN } : Week).end_date
          = ({ id := 2, closing_seq := 6, start_date := 109, end_date := 115,
               status := .OPEN } : Week).start_date + 6
      ∧ weekday ({ id := 2, closing_seq := 6, start_date := 109, end_date := 115,
                   status := .OPEN } : Week).start_date = 3
      ∧ non_week_frame closed_walk_db
          { closed_walk_db with
            weeks := closed_walk_db.weeks
              ++ [{ id := 2, closing_seq := 6, start_date := 109, end_date := 115,
                    status := .OPEN }]
            seq := 3 })) :=
  claim_C10_walk_inserts_at_most_one closed_walk_db 104
    { closed_walk_db with
      weeks := closed_walk_db.weeks
        ++ [{ id := 2, closing_seq := 6, start_date := 109, end_date := 115,
              status := .OPEN }]
      seq := 3 }
    { id := 2, closing_seq := 6, start_date := 109, end_date := 115,
      status := .OPEN }
    (by decide)

end Motoboys
